import Mathlib

/-!
Verification of the FX CIP arbitrage pipeline (fx-arb-dashboard).

The computational core of the repository is embedded over exact rational
arithmetic: the CIP pricing functions of `cip.py`, the signal classifiers of
`optimize.py` / `app.py` / `backtest.py`, the per-row PnL computation of
`run_backtest` / `backtest`, the dashboard PnL of `app.py`, the win-rate
aggregation, and the Monte-Carlo spot-path simulator `simulate_pnl` of
`app.py` (its random draws threaded explicitly as a stream, standing for the
module-global random generator that the Python code consumes).
-/

namespace FxArb

/-- Runtime errors surfaced by the pipeline.  `zeroDivisionError` is the
error Python raises on float division by zero; `invalidRateError` is the
guarded error class that the design documents ask for. -/
inductive PyErr
  | zeroDivisionError
  | invalidRateError
  deriving DecidableEq, Repr

/-- `cip.theoretical_forward`:
`spot * (1 + r_dom * tenor_days / 360) / (1 + r_for * tenor_days / 360)`.
The division is unguarded in the source; a denominator of exactly zero makes
Python raise `ZeroDivisionError`, modelled here as the error branch. -/
def theoretical_forward (spot r_dom r_for : ℚ) (tenor_days : ℕ) : Except PyErr ℚ :=
  if 1 + r_for * (tenor_days : ℚ) / 360 = 0 then
    Except.error PyErr.zeroDivisionError
  else
    Except.ok (spot * (1 + r_dom * (tenor_days : ℚ) / 360) / (1 + r_for * (tenor_days : ℚ) / 360))

/-- `cip.deviation_bps`: `(obs_fwd - theo_fwd) / theo_fwd * 10_000`, with the
unguarded division raising `ZeroDivisionError` when `theo_fwd` is zero. -/
def deviation_bps (obs_fwd theo_fwd : ℚ) : Except PyErr ℚ :=
  if theo_fwd = 0 then
    Except.error PyErr.zeroDivisionError
  else
    Except.ok ((obs_fwd - theo_fwd) / theo_fwd * 10000)

/-- Signal column of `optimize.run_backtest`: the frame starts at 0, rows with
`dev_bps > threshold_bps` are set to -1 (sell), then rows with
`dev_bps < -threshold_bps` are set to +1 (buy); the later assignment wins
where both conditions hold. -/
def classify (dev_bps threshold_bps : ℚ) : ℤ :=
  if dev_bps < -threshold_bps then 1
  else if dev_bps > threshold_bps then -1
  else 0

/-- The three dashboard signals of `app.py`. -/
inductive Signal3
  | sell
  | buy
  | noAction
  deriving DecidableEq, Repr

/-- Signal branch of `app.py`: `dev_bps > threshold_bps` gives the sell
signal, `dev_bps < -threshold_bps` the buy signal, otherwise no arbitrage. -/
def appClassify (dev_bps threshold_bps : ℚ) : Signal3 :=
  if dev_bps > threshold_bps then Signal3.sell
  else if dev_bps < -threshold_bps then Signal3.buy
  else Signal3.noAction

/-- Signal column of `backtest.backtest`: rows with `dev_bps > 0` are set to
-1 (sell forward if rich), rows with `dev_bps < 0` to +1 (buy forward if
cheap); there is no threshold parameter in that function. -/
def backtestSignal (dev_bps : ℚ) : ℤ :=
  if dev_bps < 0 then 1
  else if dev_bps > 0 then -1
  else 0

/-- `cost = spread_bps / 10_000 * notional` from the backtest drivers. -/
def tradeCost (spread_bps notional : ℚ) : ℚ :=
  spread_bps / 10000 * notional

/-- `stop_amt = stop_loss_bps / 10_000 * notional` from the backtest drivers. -/
def stopAmt (stop_loss_bps notional : ℚ) : ℚ :=
  stop_loss_bps / 10000 * notional

/-- `raw_pnl = signal * (exit_spot - obs_fwd) * notional` per row. -/
def rawPnl (signal : ℤ) (exit_spot obs_fwd notional : ℚ) : ℚ :=
  (signal : ℚ) * (exit_spot - obs_fwd) * notional

/-- `pnl = raw_pnl - abs(signal) * cost`, the per-row PnL before the
stop-loss clamp. -/
def pnlBeforeStop (signal : ℤ) (exit_spot obs_fwd notional spread_bps : ℚ) : ℚ :=
  rawPnl signal exit_spot obs_fwd notional - ((|signal| : ℤ) : ℚ) * tradeCost spread_bps notional

/-- Per-row PnL of `optimize.run_backtest` / `backtest.backtest`: the
pre-stop PnL, replaced by `-stop_amt` when it falls below `-stop_amt`. -/
def estimate_pnl (signal : ℤ) (exit_spot obs_fwd notional spread_bps stop_loss_bps : ℚ) : ℚ :=
  if pnlBeforeStop signal exit_spot obs_fwd notional spread_bps < -(stopAmt stop_loss_bps notional)
  then -(stopAmt stop_loss_bps notional)
  else pnlBeforeStop signal exit_spot obs_fwd notional spread_bps

/-- Per-row dashboard PnL of `app.py` (notional hard-coded to 1,000,000):
`raw_pnl = (obs_fwd - theo_fwd) * 1_000_000`, then the spread cost is
subtracted unconditionally, then the stop-loss clamp is applied.  The signal
does not enter this computation at all. -/
def appPnl (obs_fwd theo_fwd spread_bps stop_loss_bps : ℚ) : ℚ :=
  if (obs_fwd - theo_fwd) * 1000000 - spread_bps / 10000 * 1000000 <
      -(stop_loss_bps / 10000 * 1000000)
  then -(stop_loss_bps / 10000 * 1000000)
  else (obs_fwd - theo_fwd) * 1000000 - spread_bps / 10000 * 1000000

/-- `num_trades = (trades["signal"] != 0).sum()`: rows whose signal is
nonzero, over the retained rows (signal, pnl). -/
def numTrades (rows : List (ℤ × ℚ)) : ℕ :=
  rows.countP (fun r => decide (r.1 ≠ 0))

/-- `win_rate = trades["pnl"].gt(0).mean() * 100 if num_trades else 0`: the
mean of the boolean column runs over every retained row, so the denominator
is the total number of retained rows. -/
def winRate (rows : List (ℤ × ℚ)) : ℚ :=
  if numTrades rows = 0 then 0
  else ((rows.countP (fun r => decide (0 < r.2)) : ℚ) / (rows.length : ℚ)) * 100

/-- Modelled from the spec: win rate as the fraction, among rows with a
nonzero signal, of those with strictly positive PnL (scaled to percent like
the reported figure).  Stated for comparison with `winRate`, which is the
embedding of the source. -/
def winRateSpec (rows : List (ℤ × ℚ)) : ℚ :=
  if numTrades rows = 0 then 0
  else ((rows.countP (fun r => decide (r.1 ≠ 0 ∧ 0 < r.2)) : ℚ) / (numTrades rows : ℚ)) * 100

/-- One simulated path of `app.simulate_pnl`: starting from `path`, each day
multiplies by `(1 + shock)` with the next draw from the shock stream and
records `1e6 * (path - obs_fwd)`.  `i` indexes the next draw consumed. -/
def simPathAux (obs_fwd : ℚ) (shocks : ℕ → ℚ) : ℕ → ℕ → ℚ → List ℚ
  | _, 0, _ => []
  | i, d + 1, path =>
    1000000 * (path * (1 + shocks i) - obs_fwd) ::
      simPathAux obs_fwd shocks (i + 1) d (path * (1 + shocks i))

/-- `app.simulate_pnl(spot0, obs_fwd, days, sims)`: a matrix of daily PnL
values, one row per simulation.  The Python source draws
`random.uniform(-0.005, 0.005)` from the module-global generator; the
sequence of draws is made explicit here as the stream `shocks`, consumed in
program order (simulation `i` uses draws `i*days, ..., i*days + days - 1`).
The Python signature exposes no parameter controlling this stream. -/
def simulate_pnl (spot0 obs_fwd : ℚ) (days sims : ℕ) (shocks : ℕ → ℚ) : List (List ℚ) :=
  (List.range sims).map (fun i => simPathAux obs_fwd shocks (i * days) days spot0)

lemma tf_same_rate (s r : ℚ) (t : ℕ) (h : 1 + r * (t : ℚ) / 360 ≠ 0) :
    theoretical_forward s r r t = Except.ok s := by
  unfold theoretical_forward
  rw [if_neg h, mul_div_assoc, div_self h, mul_one]

/-- C1: for every spot, r_dom, r_for and positive tenor_days whose foreign
denominator `1 + r_for*tenor_days/360` is nonzero, `theoretical_forward`
returns `spot * (1 + r_dom*tenor_days/360) / (1 + r_for*tenor_days/360)`. -/
theorem C1_theoretical_forward_formula (spot r_dom r_for : ℚ) (tenor_days : ℕ)
    (htpos : 0 < tenor_days) (h : 1 + r_for * (tenor_days : ℚ) / 360 ≠ 0) :
    theoretical_forward spot r_dom r_for tenor_days =
      Except.ok (spot * (1 + r_dom * (tenor_days : ℚ) / 360) /
        (1 + r_for * (tenor_days : ℚ) / 360)) := by
  unfold theoretical_forward
  rw [if_neg h]

/-- Witness for C1 at spot = 5, r_dom = 0, r_for = 0, tenor_days = 1. -/
theorem C1_witness :
    0 < 1 ∧ 1 + (0 : ℚ) * ((1 : ℕ) : ℚ) / 360 ≠ 0 ∧
    theoretical_forward 5 0 0 1 =
      Except.ok (5 * (1 + (0 : ℚ) * ((1 : ℕ) : ℚ) / 360) /
        (1 + (0 : ℚ) * ((1 : ℕ) : ℚ) / 360)) :=
  ⟨Nat.one_pos, by norm_num,
    C1_theoretical_forward_formula 5 0 0 1 Nat.one_pos (by norm_num)⟩

/-- C2: at a zero denominator (spot = 1, r_dom = 0, r_for = -12,
tenor_days = 30, so `1 + (-12)*30/360 = 0`) the unguarded division of
`theoretical_forward` surfaces the built-in `ZeroDivisionError`, not the
`InvalidRateError` that the claim asks for (no such guard exists in the
source). -/
theorem C2_zero_denominator_raises_zero_division :
    theoretical_forward 1 0 (-12) 30 = Except.error PyErr.zeroDivisionError ∧
    theoretical_forward 1 0 (-12) 30 ≠ Except.error PyErr.invalidRateError := by
  constructor
  · norm_num [theoretical_forward]
  · norm_num [theoretical_forward]
    decide

/-- C3: `deviation_bps` fails with a divide-by-zero error exactly when the
theoretical forward is zero, and otherwise returns
`(observed - theoretical) / theoretical * 10000`. -/
theorem C3_deviation_bps_spec (obs_fwd theo_fwd : ℚ) :
    (deviation_bps obs_fwd theo_fwd = Except.error PyErr.zeroDivisionError ↔ theo_fwd = 0) ∧
    (theo_fwd ≠ 0 →
      deviation_bps obs_fwd theo_fwd = Except.ok ((obs_fwd - theo_fwd) / theo_fwd * 10000)) := by
  unfold deviation_bps
  constructor
  · split_ifs with h
    · simp [h]
    · simp [h]
  · intro h
    rw [if_neg h]

/-- Witness for C3 at observed = 3, theoretical = 2. -/
theorem C3_witness :
    (2 : ℚ) ≠ 0 ∧ deviation_bps 3 2 = Except.ok ((3 - 2) / 2 * 10000) :=
  ⟨by norm_num, (C3_deviation_bps_spec 3 2).2 (by norm_num)⟩

/-- C4: for every deviation x and threshold t ≥ 0, both the dashboard
classifier of `app.py` and the signal assignment of `optimize.run_backtest`
give Sell exactly when x > t, Buy exactly when x < -t, and classify the ties
x = t and x = -t as No-Action. -/
theorem C4_classifier_threshold (x t : ℚ) (ht : 0 ≤ t) :
    (appClassify x t = Signal3.sell ↔ t < x) ∧
    (appClassify x t = Signal3.buy ↔ x < -t) ∧
    ((x = t ∨ x = -t) → appClassify x t = Signal3.noAction) ∧
    (classify x t = -1 ↔ t < x) ∧
    (classify x t = 1 ↔ x < -t) ∧
    ((x = t ∨ x = -t) → classify x t = 0) := by
  refine ⟨?_, ?_, ?_, ?_, ?_, ?_⟩
  · unfold appClassify
    split_ifs with h1 h2
    · exact iff_of_true rfl h1
    · exact iff_of_false (by decide) h1
    · exact iff_of_false (by decide) h1
  · unfold appClassify
    split_ifs with h1 h2
    · exact iff_of_false (by decide) (by intro hc; linarith)
    · exact iff_of_true rfl h2
    · exact iff_of_false (by decide) h2
  · rintro (rfl | rfl)
    · unfold appClassify
      rw [if_neg (lt_irrefl x), if_neg (by intro hc; linarith)]
    · unfold appClassify
      rw [if_neg (by intro hc; linarith), if_neg (lt_irrefl (-t))]
  · unfold classify
    split_ifs with h1 h2
    · exact iff_of_false (by decide) (by intro hc; linarith)
    · exact iff_of_true rfl h2
    · exact iff_of_false (by decide) h2
  · unfold classify
    split_ifs with h1 h2
    · exact iff_of_true rfl h1
    · exact iff_of_false (by decide) h1
    · exact iff_of_false (by decide) h1
  · rintro (rfl | rfl)
    · unfold classify
      rw [if_neg (by intro hc; linarith), if_neg (lt_irrefl x)]
    · unfold classify
      rw [if_neg (lt_irrefl (-t)), if_neg (by intro hc; linarith)]

/-- Witness for C4 at threshold 1: deviation 2 is classified sell and
deviation -2 is classified buy (as +1) by the backtest classifier. -/
theorem C4_witness :
    (0 : ℚ) ≤ 1 ∧ appClassify 2 1 = Signal3.sell ∧ classify (-2) 1 = 1 :=
  ⟨by norm_num,
    (C4_classifier_threshold 2 1 (by norm_num)).1.mpr (by norm_num),
    (C4_classifier_threshold (-2) 1 (by norm_num)).2.2.2.2.1.mpr (by norm_num)⟩

/-- C5: for every signal, observed forward, exit reference, notional > 0,
spread_bps ≥ 0 and stop_loss_bps ≥ 0, the per-row PnL of the backtest
drivers is never below the stop-loss floor `-stop_loss_bps/10000*notional`. -/
theorem C5_pnl_floor (signal : ℤ) (exit_spot obs_fwd notional spread_bps stop_loss_bps : ℚ)
    (hn : 0 < notional) (hsp : 0 ≤ spread_bps) (hst : 0 ≤ stop_loss_bps) :
    -(stop_loss_bps / 10000 * notional) ≤
      estimate_pnl signal exit_spot obs_fwd notional spread_bps stop_loss_bps := by
  unfold estimate_pnl stopAmt
  split_ifs with h
  · exact le_refl _
  · push_neg at h
    exact h

/-- Witness for C5 at signal = -1, exit = 1, observed forward = 2,
notional = 1,000,000, spread = 0.5 bps, stop = 5 bps. -/
theorem C5_witness :
    (0 : ℚ) < 1000000 ∧ (0 : ℚ) ≤ 1 / 2 ∧ (0 : ℚ) ≤ 5 ∧
    -((5 : ℚ) / 10000 * 1000000) ≤ estimate_pnl (-1) 1 2 1000000 (1 / 2) 5 :=
  ⟨by norm_num, by norm_num, by norm_num,
    C5_pnl_floor (-1) 1 2 1000000 (1 / 2) 5 (by norm_num) (by norm_num) (by norm_num)⟩

/-- C6: the backtest drivers give a No-Action row PnL exactly 0 and charge
the spread cost only through the factor `abs(signal)`, but the dashboard PnL
of `app.py` subtracts the cost unconditionally: on a row with
obs_fwd = theo_fwd = 1 (deviation 0, classified No-Action at threshold 1)
with spread 0.1 bps and stop 2 bps it reports -10 dollars instead of 0. -/
theorem C6_app_charges_cost_on_no_action :
    estimate_pnl 0 (3 / 2) 1 1000000 (1 / 10) 2 = 0 ∧
    pnlBeforeStop 0 (3 / 2) 1 1000000 (1 / 10) = 0 ∧
    pnlBeforeStop 1 (3 / 2) 1 1000000 (1 / 10) =
      rawPnl 1 (3 / 2) 1 1000000 - tradeCost (1 / 10) 1000000 ∧
    appClassify 0 1 = Signal3.noAction ∧
    appPnl 1 1 (1 / 10) 2 = -10 := by
  refine ⟨?_, ?_, ?_, ?_, ?_⟩ <;>
    norm_num [estimate_pnl, pnlBeforeStop, rawPnl, tradeCost, stopAmt, appClassify, appPnl]

/-- C7: on the two retained rows (signal 1 with PnL 10, signal 0 with
PnL 0) the source win rate divides by all retained rows and reports 50,
while the specified win rate over the single nonzero trade is 100: No-Action
rows do enter the denominator of the code. -/
theorem C7_win_rate_counts_no_action_rows :
    numTrades [((1 : ℤ), (10 : ℚ)), (0, 0)] = 1 ∧
    winRate [((1 : ℤ), (10 : ℚ)), (0, 0)] = 50 ∧
    winRateSpec [((1 : ℤ), (10 : ℚ)), (0, 0)] = 100 := by
  refine ⟨?_, ?_, ?_⟩ <;>
    norm_num [winRate, winRateSpec, numTrades, List.countP_cons]

/-- C8: with every interface argument of `simulate_pnl` held fixed
(spot0 = 1, obs_fwd = 2, days = 1, sims = 1), two states of the hidden
module-global random stream give different output matrices, so the output is
not a function of the interface inputs: no seed parameter exists through
which the caller could force identical runs. -/
theorem C8_output_depends_on_hidden_rng :
    simulate_pnl 1 2 1 1 (fun _ => 0) ≠ simulate_pnl 1 2 1 1 (fun _ => 1 / 1000) := by
  norm_num [simulate_pnl, simPathAux, List.range_succ]

/-- C9 counterexample to the claim as stated: there is no input with
positive spot, equal rates, positive tenor and nonzero denominator at which
`theoretical_forward` differs from the spot. -/
theorem C9_counterexample :
    ¬ ∃ (s r : ℚ) (t : ℕ), 0 < s ∧ 0 < t ∧ 1 + r * (t : ℚ) / 360 ≠ 0 ∧
      theoretical_forward s r r t ≠ Except.ok s := by
  rintro ⟨s, r, t, -, -, hd, hne⟩
  exact hne (tf_same_rate s r t hd)

/-- C9 (amended): whenever the denominator `1 + r*tenor/360` is nonzero,
`theoretical_forward(spot, r, r, tenor)` equals the spot exactly — the
identity holds for every tenor, not only in the limit tenor → 0. -/
theorem C9_same_rate_identity (spot r : ℚ) (tenor_days : ℕ)
    (h : 1 + r * (tenor_days : ℚ) / 360 ≠ 0) :
    theoretical_forward spot r r tenor_days = Except.ok spot :=
  tf_same_rate spot r tenor_days h

/-- Witness for the amended C9 at spot = 5, r = 1/40, tenor = 30. -/
theorem C9_witness :
    1 + (1 / 40 : ℚ) * ((30 : ℕ) : ℚ) / 360 ≠ 0 ∧
    theoretical_forward 5 (1 / 40) (1 / 40) 30 = Except.ok 5 :=
  ⟨by norm_num, C9_same_rate_identity 5 (1 / 40) 30 (by norm_num)⟩

/-- C10: the signal assignment of `backtest.backtest` coincides with the
threshold classifier at threshold 0: every row with deviation strictly above
0 bps is a sell (-1) and every row with deviation strictly below 0 bps is a
buy (+1). -/
theorem C10_backtest_zero_threshold (dev_bps : ℚ) :
    backtestSignal dev_bps = classify dev_bps 0 ∧
    (backtestSignal dev_bps = -1 ↔ 0 < dev_bps) ∧
    (backtestSignal dev_bps = 1 ↔ dev_bps < 0) := by
  unfold backtestSignal classify
  simp only [neg_zero]
  refine ⟨by trivial, ?_, ?_⟩
  · split_ifs with h1 h2
    · exact iff_of_false (by decide) (by intro hc; linarith)
    · exact iff_of_true rfl h2
    · exact iff_of_false (by decide) h2
  · split_ifs with h1 h2
    · exact iff_of_true rfl h1
    · exact iff_of_false (by decide) h1
    · exact iff_of_false (by decide) h1

end FxArb
